import Mathlib

/-!
Verification of the gRPC error-normalization layer (util/grpc/errors.go).

The layer classifies backend errors at the RPC boundary:
gitErrToGRPC for the version-control domain, kubeErrToGRPC for the
Kubernetes control-plane domain, UnwrapGRPCStatus to recover an embedded
gRPC status from a wrapped error chain, and four interceptor bindings.

Modelling choices (shallow embedding of the Go code):
a Go error value is either nil (the `none` of `Option GoError`) or a
`GoError` carrying its Error() text, an optional embedded gRPC status
(the result of the `GRPCStatus()` capability when the dynamic type
exposes it), the thirteen Kubernetes apierrors predicates as opaque
booleans (the apimachinery library is an external collaborator; each
flag records the value of the corresponding IsX predicate on that error
value), and an optional cause (the result of errors.Unwrap).
-/

/-- gRPC status codes, as enumerated in google.golang.org/grpc/codes. -/
inductive Code where
  | OK
  | Canceled
  | Unknown
  | InvalidArgument
  | DeadlineExceeded
  | NotFound
  | AlreadyExists
  | PermissionDenied
  | ResourceExhausted
  | FailedPrecondition
  | Aborted
  | OutOfRange
  | Unimplemented
  | Internal
  | Unavailable
  | DataLoss
  | Unauthenticated
deriving DecidableEq, Repr

/-- The String() rendering of a gRPC code, used in a status error text. -/
def codeString : Code → String
  | .OK => "OK"
  | .Canceled => "Canceled"
  | .Unknown => "Unknown"
  | .InvalidArgument => "InvalidArgument"
  | .DeadlineExceeded => "DeadlineExceeded"
  | .NotFound => "NotFound"
  | .AlreadyExists => "AlreadyExists"
  | .PermissionDenied => "PermissionDenied"
  | .ResourceExhausted => "ResourceExhausted"
  | .FailedPrecondition => "FailedPrecondition"
  | .Aborted => "Aborted"
  | .OutOfRange => "OutOfRange"
  | .Unimplemented => "Unimplemented"
  | .Internal => "Internal"
  | .Unavailable => "Unavailable"
  | .DataLoss => "DataLoss"
  | .Unauthenticated => "Unauthenticated"

/-- A gRPC status: an immutable (code, message) pair. -/
structure GStatus where
  code : Code
  message : String
deriving DecidableEq, Repr

/-- The thirteen k8s.io/apimachinery apierrors predicates consulted by
kubeErrToGRPC, recorded as opaque attributes of an error value. -/
structure KubeFlags where
  isNotFound : Bool
  isAlreadyExists : Bool
  isInvalid : Bool
  isMethodNotSupported : Bool
  isServiceUnavailable : Bool
  isBadRequest : Bool
  isUnauthorized : Bool
  isForbidden : Bool
  isTimeout : Bool
  isServerTimeout : Bool
  isConflict : Bool
  isTooManyRequests : Bool
  isInternalError : Bool
deriving DecidableEq, Repr

/-- The flag record of an error value satisfying no apierrors predicate. -/
def noFlags : KubeFlags :=
  ⟨false, false, false, false, false, false, false,
   false, false, false, false, false, false⟩

/-- A non-nil Go error value: its Error() text, its GRPCStatus()
capability (some s when the dynamic type exposes a non-nil status), its
apierrors predicate values, and its errors.Unwrap result. -/
inductive GoError where
  | mk (msg : String) (grpcStatus : Option GStatus) (kube : KubeFlags)
       (cause : Option GoError)

/-- The Error() text of a non-nil error. -/
def GoError.msg : GoError → String
  | .mk m _ _ _ => m

/-- The GRPCStatus() capability of a non-nil error. -/
def GoError.grpcStatus : GoError → Option GStatus
  | .mk _ s _ _ => s

/-- The apierrors predicate values of a non-nil error. -/
def GoError.kube : GoError → KubeFlags
  | .mk _ _ k _ => k

/-- The errors.Unwrap result of a non-nil error. -/
def GoError.cause : GoError → Option GoError
  | .mk _ _ _ c => c

/-- The Error() text of a google.golang.org/grpc/status error:
fmt.Sprintf of "rpc error: code = %s desc = %s". -/
def statusErrText (c : Code) (m : String) : String :=
  "rpc error: code = " ++ codeString c ++ " desc = " ++ m

/-- google.golang.org/grpc/status.Error(c, msg): builds the status error
for (c, msg). Per the grpc-go library, status.New(c, msg).Err() returns
nil when c is OK; otherwise the result is a fresh error exposing exactly
the status (c, msg), satisfying no apierrors predicate and wrapping no
cause. -/
def statusError (c : Code) (m : String) : Option GoError :=
  if c = Code.OK then none
  else some (GoError.mk (statusErrText c m) (some ⟨c, m⟩) noFlags none)

/-- errors.New(text): a plain error with only a message. -/
def errorsNew (text : String) : GoError :=
  GoError.mk text none noFlags none

/-- rewrapError from errors.go: status.Error(code, err.Error()). -/
def rewrapError (err : GoError) (code : Code) : Option GoError :=
  statusError code err.msg

/-- UnwrapGRPCStatus from errors.go, on a non-nil error: if the error
itself exposes GRPCStatus, return that status; otherwise recurse on the
errors.Unwrap cause, returning nil at a chain end. -/
def UnwrapGRPCStatusNN : GoError → Option GStatus
  | .mk _ (some s) _ _ => some s
  | .mk _ none _ none => none
  | .mk _ none _ (some c) => UnwrapGRPCStatusNN c

/-- UnwrapGRPCStatus from errors.go, on a nilable error: the type
assertion on a nil error fails and errors.Unwrap(nil) is nil, so nil
maps to nil. -/
def UnwrapGRPCStatus : Option GoError → Option GStatus
  | none => none
  | some e => UnwrapGRPCStatusNN e

/-- go-git transport.ErrRepositoryNotFound message text. -/
def ErrRepositoryNotFound : String := "repository not found"

/-- gitErrToGRPC from errors.go: nil maps to nil; otherwise the
effective message is the embedded status message when UnwrapGRPCStatus
finds one and err.Error() otherwise, and when it equals the go-git
repository-not-found text the result is
rewrapError(errors.New(errMsg), codes.NotFound), else err unchanged. -/
def gitErrToGRPC : Option GoError → Option GoError
  | none => none
  | some e =>
    let errMsg := match UnwrapGRPCStatusNN e with
      | some s => s.message
      | none => e.msg
    if errMsg = ErrRepositoryNotFound then
      rewrapError (errorsNew errMsg) Code.NotFound
    else
      some e

/-- kubeErrToGRPC from errors.go: the thirteen apierrors predicates are
tried in source order, first match rewrapping with the paired code; the
default branch re-emits an unwrapped embedded status, or returns the
error unchanged. On nil every predicate is false and UnwrapGRPCStatus
is nil, so the default branch returns nil unchanged. -/
def kubeErrToGRPC : Option GoError → Option GoError
  | none => none
  | some e =>
    if e.kube.isNotFound then rewrapError e Code.NotFound
    else if e.kube.isAlreadyExists then rewrapError e Code.AlreadyExists
    else if e.kube.isInvalid then rewrapError e Code.InvalidArgument
    else if e.kube.isMethodNotSupported then rewrapError e Code.Unimplemented
    else if e.kube.isServiceUnavailable then rewrapError e Code.Unavailable
    else if e.kube.isBadRequest then rewrapError e Code.FailedPrecondition
    else if e.kube.isUnauthorized then rewrapError e Code.Unauthenticated
    else if e.kube.isForbidden then rewrapError e Code.PermissionDenied
    else if e.kube.isTimeout then rewrapError e Code.DeadlineExceeded
    else if e.kube.isServerTimeout then rewrapError e Code.Unavailable
    else if e.kube.isConflict then rewrapError e Code.Aborted
    else if e.kube.isTooManyRequests then rewrapError e Code.ResourceExhausted
    else if e.kube.isInternalError then rewrapError e Code.Internal
    else match UnwrapGRPCStatusNN e with
      | some s => statusError s.code s.message
      | none => some e

/-- The ordered (predicate, code) rule list of kubeErrToGRPC, in the
exact source order of the switch statement. -/
def kubePredList : List ((GoError → Bool) × Code) :=
  [ (fun e => e.kube.isNotFound, Code.NotFound),
    (fun e => e.kube.isAlreadyExists, Code.AlreadyExists),
    (fun e => e.kube.isInvalid, Code.InvalidArgument),
    (fun e => e.kube.isMethodNotSupported, Code.Unimplemented),
    (fun e => e.kube.isServiceUnavailable, Code.Unavailable),
    (fun e => e.kube.isBadRequest, Code.FailedPrecondition),
    (fun e => e.kube.isUnauthorized, Code.Unauthenticated),
    (fun e => e.kube.isForbidden, Code.PermissionDenied),
    (fun e => e.kube.isTimeout, Code.DeadlineExceeded),
    (fun e => e.kube.isServerTimeout, Code.Unavailable),
    (fun e => e.kube.isConflict, Code.Aborted),
    (fun e => e.kube.isTooManyRequests, Code.ResourceExhausted),
    (fun e => e.kube.isInternalError, Code.Internal) ]

/-- True when no kubeErrToGRPC predicate fires on the error. -/
def kubeNoMatch (e : GoError) : Bool :=
  !(e.kube.isNotFound || e.kube.isAlreadyExists || e.kube.isInvalid ||
    e.kube.isMethodNotSupported || e.kube.isServiceUnavailable ||
    e.kube.isBadRequest || e.kube.isUnauthorized || e.kube.isForbidden ||
    e.kube.isTimeout || e.kube.isServerTimeout || e.kube.isConflict ||
    e.kube.isTooManyRequests || e.kube.isInternalError)

/-- The effective message gitErrToGRPC classifies by: the embedded
status message when one is found, the error's own text otherwise. -/
def effectiveMsg (e : GoError) : String :=
  match UnwrapGRPCStatusNN e with
  | some s => s.message
  | none => e.msg

/-- Nesting depth of an error chain: number of errors.Unwrap steps
until the chain ends. -/
def errDepth : GoError → Nat
  | .mk _ _ _ none => 0
  | .mk _ _ _ (some c) => errDepth c + 1

/-- Fuel-bounded variant of UnwrapGRPCStatus, used to show the
recursion needs no more steps than the chain's actual nesting depth. -/
def unwrapFuel : Nat → GoError → Option GStatus
  | _, .mk _ (some s) _ _ => some s
  | _, .mk _ none _ none => none
  | 0, .mk _ none _ (some _) => none
  | n + 1, .mk _ none _ (some c) => unwrapFuel n c

/-- A chain of n context-wrapper links around a single innermost
status-bearing error, as produced by repeated fmt.Errorf wrapping. -/
def statusChain (s : GStatus) : Nat → GoError
  | 0 => GoError.mk "status-bearing inner error" (some s) noFlags none
  | n + 1 => GoError.mk ("context wrapper " ++ toString n) none noFlags
      (some (statusChain s n))

/-- ErrorCodeGitUnaryServerInterceptor from errors.go: invoke the
wrapped handler, return its response together with the handler error
passed through gitErrToGRPC. -/
def ErrorCodeGitUnaryServerInterceptor {Ctx Req Resp : Type}
    (handler : Ctx → Req → Resp × Option GoError) (ctx : Ctx) (req : Req) :
    Resp × Option GoError :=
  let r := handler ctx req
  (r.1, gitErrToGRPC r.2)

/-- ErrorCodeGitStreamServerInterceptor from errors.go: the stream
handler runs to completion; the messages it wrote to the stream are not
touched (the interceptor only sees and returns the terminal error,
classified by gitErrToGRPC). The handler result is modelled as the list
of messages sent plus the terminal error. -/
def ErrorCodeGitStreamServerInterceptor {Srv SS Msg : Type}
    (handler : Srv → SS → List Msg × Option GoError) (srv : Srv) (ss : SS) :
    List Msg × Option GoError :=
  let r := handler srv ss
  (r.1, gitErrToGRPC r.2)

/-- ErrorCodeK8sUnaryServerInterceptor from errors.go: same shape with
kubeErrToGRPC. -/
def ErrorCodeK8sUnaryServerInterceptor {Ctx Req Resp : Type}
    (handler : Ctx → Req → Resp × Option GoError) (ctx : Ctx) (req : Req) :
    Resp × Option GoError :=
  let r := handler ctx req
  (r.1, kubeErrToGRPC r.2)

/-- ErrorCodeK8sStreamServerInterceptor from errors.go: same shape with
kubeErrToGRPC. -/
def ErrorCodeK8sStreamServerInterceptor {Srv SS Msg : Type}
    (handler : Srv → SS → List Msg × Option GoError) (srv : Srv) (ss : SS) :
    List Msg × Option GoError :=
  let r := handler srv ss
  (r.1, kubeErrToGRPC r.2)

/-! Helper lemmas shared by the claim theorems. -/

/-- gitErrToGRPC on a non-nil error, stated through effectiveMsg. -/
theorem gitErrToGRPC_some (e : GoError) :
    gitErrToGRPC (some e) =
      if effectiveMsg e = ErrRepositoryNotFound then
        rewrapError (errorsNew (effectiveMsg e)) Code.NotFound
      else some e := rfl

/-- A status error (or the nil that status.Error yields on OK) is a
fixed point of kubeErrToGRPC: no apierrors predicate holds of it and
the default branch re-emits its own status unchanged. -/
theorem kubeErrToGRPC_statusError_fix (c : Code) (m : String) :
    kubeErrToGRPC (statusError c m) = statusError c m := by
  by_cases h : c = Code.OK
  · subst h
    rfl
  · simp [statusError, h, kubeErrToGRPC, GoError.kube, noFlags,
      UnwrapGRPCStatusNN, rewrapError]

/-- Fuel equal to the chain depth suffices for the unwrapper. -/
theorem unwrapFuel_depth_eq : ∀ e : GoError,
    unwrapFuel (errDepth e) e = UnwrapGRPCStatusNN e
  | .mk _ (some _) _ none => rfl
  | .mk _ (some _) _ (some _) => by
      simp [errDepth, unwrapFuel, UnwrapGRPCStatusNN]
  | .mk _ none _ none => rfl
  | .mk _ none _ (some c) => by
      simpa [errDepth, unwrapFuel, UnwrapGRPCStatusNN] using
        unwrapFuel_depth_eq c

/-- C5: both domain classifiers map a nil input to a nil output. -/
theorem c5_nil_to_nil :
    gitErrToGRPC none = none ∧ kubeErrToGRPC none = none :=
  ⟨rfl, rfl⟩

/-- C3: UnwrapGRPCStatus returns the status of the outermost link
exposing the capability — an exposed status is returned before any
unwrapping; with no status the traversal recurses on the cause; with
neither status nor cause the result is absent. -/
theorem c3_unwrap_outermost (e : GoError) :
    (∀ s : GStatus, e.grpcStatus = some s → UnwrapGRPCStatusNN e = some s) ∧
    (e.grpcStatus = none → ∀ c : GoError, e.cause = some c →
      UnwrapGRPCStatusNN e = UnwrapGRPCStatusNN c) ∧
    (e.grpcStatus = none → e.cause = none → UnwrapGRPCStatusNN e = none) := by
  cases e with
  | mk m st k cz =>
    refine ⟨?_, ?_, ?_⟩ <;> cases st <;> cases cz <;>
      simp [GoError.grpcStatus, GoError.cause, UnwrapGRPCStatusNN]

/-- C3 witness: an error whose outer link and inner link both expose a
status resolves to the outer one. -/
theorem c3_unwrap_outermost_witness :
    UnwrapGRPCStatusNN
      (GoError.mk "outer" (some ⟨Code.Internal, "outer status"⟩) noFlags
        (some (GoError.mk "inner" (some ⟨Code.NotFound, "inner status"⟩)
          noFlags none))) = some ⟨Code.Internal, "outer status"⟩ :=
  (c3_unwrap_outermost _).1 _ rfl

/-- C7: for a chain of any depth n with the status only at the
innermost link, UnwrapGRPCStatus terminates with exactly that status;
the chain has depth n, and fuel equal to an error's depth suffices for
the recursion. -/
theorem c7_unwrap_depth :
    (∀ (s : GStatus) (n : Nat),
        UnwrapGRPCStatusNN (statusChain s n) = some s) ∧
    (∀ (s : GStatus) (n : Nat), errDepth (statusChain s n) = n) ∧
    (∀ e : GoError, unwrapFuel (errDepth e) e = UnwrapGRPCStatusNN e) := by
  refine ⟨?_, ?_, unwrapFuel_depth_eq⟩
  · intro s n
    induction n with
    | zero => rfl
    | succ n ih => simpa [statusChain, UnwrapGRPCStatusNN] using ih
  · intro s n
    induction n with
    | zero => rfl
    | succ n ih => simpa [statusChain, errDepth] using ih

/-- C4: gitErrToGRPC classifies by the effective message — the
embedded status message when one exists, the error's own text
otherwise. On the canonical repository-not-found text it returns a
freshly built status error with code NotFound carrying that message;
in every other case it returns the input unchanged. -/
theorem c4_git_classifier (e : GoError) :
    (effectiveMsg e = ErrRepositoryNotFound →
      gitErrToGRPC (some e) =
        some (GoError.mk (statusErrText Code.NotFound ErrRepositoryNotFound)
          (some ⟨Code.NotFound, ErrRepositoryNotFound⟩) noFlags none)) ∧
    (effectiveMsg e ≠ ErrRepositoryNotFound →
      gitErrToGRPC (some e) = some e) := by
  constructor <;> intro h <;>
    simp [gitErrToGRPC_some, h, rewrapError, errorsNew, statusError,
      GoError.msg]

/-- C4 witness: a bare error with the canonical text is rewrapped to a
NotFound status error; a different bare error passes through. -/
theorem c4_git_classifier_witness :
    gitErrToGRPC (some (errorsNew "repository not found")) =
      some (GoError.mk (statusErrText Code.NotFound ErrRepositoryNotFound)
        (some ⟨Code.NotFound, ErrRepositoryNotFound⟩) noFlags none) ∧
    gitErrToGRPC (some (errorsNew "connection reset")) =
      some (errorsNew "connection reset") :=
  ⟨(c4_git_classifier _).1 rfl, (c4_git_classifier _).2 (by decide)⟩

/-- C9: an error matching no domain rule and exposing no embedded
status anywhere in its chain is returned by both classifiers as the
very same value, message and wrapping untouched. -/
theorem c9_passthrough (e : GoError) (hnm : kubeNoMatch e = true)
    (hns : UnwrapGRPCStatusNN e = none)
    (hgm : e.msg ≠ ErrRepositoryNotFound) :
    gitErrToGRPC (some e) = some e ∧ kubeErrToGRPC (some e) = some e := by
  simp [kubeNoMatch] at hnm
  obtain ⟨⟨⟨⟨⟨⟨⟨⟨⟨⟨⟨⟨h1, h2⟩, h3⟩, h4⟩, h5⟩, h6⟩, h7⟩, h8⟩,
      h9⟩, h10⟩, h11⟩, h12⟩, h13⟩ := hnm
  constructor
  · have hm : effectiveMsg e = e.msg := by simp [effectiveMsg, hns]
    simp [gitErrToGRPC_some, hm, hgm]
  · simp [kubeErrToGRPC, h1, h2, h3, h4, h5, h6, h7, h8, h9, h10, h11,
      h12, h13, hns]

/-- C9 witness: a generic network error with no flags, no status and a
non-canonical message passes through both classifiers unchanged. -/
theorem c9_passthrough_witness :
    gitErrToGRPC (some (errorsNew "network unreachable")) =
      some (errorsNew "network unreachable") ∧
    kubeErrToGRPC (some (errorsNew "network unreachable")) =
      some (errorsNew "network unreachable") :=
  c9_passthrough _ rfl rfl (by decide)

/-- C10: when the embedded status message is the canonical
repository-not-found text, gitErrToGRPC overrides the embedded code —
whatever it was — with NotFound, and the result's message is the
status message, not the outer error's own text. -/
theorem c10_git_status_override (e : GoError) (c : Code)
    (hs : UnwrapGRPCStatusNN e = some ⟨c, ErrRepositoryNotFound⟩) :
    gitErrToGRPC (some e) =
      some (GoError.mk (statusErrText Code.NotFound ErrRepositoryNotFound)
        (some ⟨Code.NotFound, ErrRepositoryNotFound⟩) noFlags none) ∧
    (gitErrToGRPC (some e)).bind GoError.grpcStatus =
      some ⟨Code.NotFound, ErrRepositoryNotFound⟩ := by
  have hm : effectiveMsg e = ErrRepositoryNotFound := by
    simp [effectiveMsg, hs]
  have h1 : gitErrToGRPC (some e) =
      some (GoError.mk (statusErrText Code.NotFound ErrRepositoryNotFound)
        (some ⟨Code.NotFound, ErrRepositoryNotFound⟩) noFlags none) := by
    simp [gitErrToGRPC_some, hm, rewrapError, errorsNew, statusError,
      GoError.msg]
  exact ⟨h1, by rw [h1]; rfl⟩

/-- C10 witness: an error with outer text "fetch failed" wrapping a
status with code Internal and message "repository not found" comes out
as a NotFound status error carrying the status message. -/
theorem c10_git_status_override_witness :
    gitErrToGRPC (some (GoError.mk "fetch failed" none noFlags
        (some (GoError.mk "inner"
          (some ⟨Code.Internal, "repository not found"⟩) noFlags none)))) =
      some (GoError.mk (statusErrText Code.NotFound ErrRepositoryNotFound)
        (some ⟨Code.NotFound, ErrRepositoryNotFound⟩) noFlags none) :=
  (c10_git_status_override
    (GoError.mk "fetch failed" none noFlags
      (some (GoError.mk "inner"
        (some ⟨Code.Internal, "repository not found"⟩) noFlags none)))
    Code.Internal rfl).1

/-- C2 counterexample: an error exposing an embedded status with code
OK and matching no control-plane rule. The default branch calls
status.Error(OK, message), which the grpc-go library defines to be nil,
so kubeErrToGRPC returns nil rather than an error carrying (OK,
message) as the claim states. -/
theorem c2_counterexample :
    kubeNoMatch (GoError.mk "boom" (some ⟨Code.OK, "all fine"⟩)
      noFlags none) = true ∧
    UnwrapGRPCStatusNN (GoError.mk "boom" (some ⟨Code.OK, "all fine"⟩)
      noFlags none) = some ⟨Code.OK, "all fine"⟩ ∧
    kubeErrToGRPC (some (GoError.mk "boom" (some ⟨Code.OK, "all fine"⟩)
      noFlags none)) = none := by
  refine ⟨rfl, rfl, ?_⟩
  simp [kubeErrToGRPC, GoError.kube, noFlags, UnwrapGRPCStatusNN,
    statusError]

/-- C2 amended: with an embedded status (c, m) and no domain rule
firing, kubeErrToGRPC re-emits a fresh unwrapped error carrying exactly
(c, m) provided c is not OK — when c is OK, status.Error yields nil and
the classifier returns nil; gitErrToGRPC (whose only rule is the
repository-not-found message) returns the error unchanged, still
carrying the embedded (c, m). -/
theorem c2_default_status_reemission (e : GoError) (c : Code) (m : String)
    (hs : UnwrapGRPCStatusNN e = some ⟨c, m⟩) :
    (kubeNoMatch e = true → c ≠ Code.OK →
      kubeErrToGRPC (some e) =
        some (GoError.mk (statusErrText c m) (some ⟨c, m⟩) noFlags none)) ∧
    (kubeNoMatch e = true → c = Code.OK → kubeErrToGRPC (some e) = none) ∧
    (m ≠ ErrRepositoryNotFound → gitErrToGRPC (some e) = some e) := by
  refine ⟨?_, ?_, ?_⟩
  · intro hnm hok
    simp [kubeNoMatch] at hnm
    obtain ⟨⟨⟨⟨⟨⟨⟨⟨⟨⟨⟨⟨h1, h2⟩, h3⟩, h4⟩, h5⟩, h6⟩, h7⟩, h8⟩,
      h9⟩, h10⟩, h11⟩, h12⟩, h13⟩ := hnm
    simp [kubeErrToGRPC, h1, h2, h3, h4, h5, h6, h7, h8, h9, h10, h11,
      h12, h13, hs, statusError, hok]
  · intro hnm hok
    simp [kubeNoMatch] at hnm
    obtain ⟨⟨⟨⟨⟨⟨⟨⟨⟨⟨⟨⟨h1, h2⟩, h3⟩, h4⟩, h5⟩, h6⟩, h7⟩, h8⟩,
      h9⟩, h10⟩, h11⟩, h12⟩, h13⟩ := hnm
    simp [kubeErrToGRPC, h1, h2, h3, h4, h5, h6, h7, h8, h9, h10, h11,
      h12, h13, hs, statusError, hok]
  · intro hm
    have h : effectiveMsg e = m := by simp [effectiveMsg, hs]
    simp [gitErrToGRPC_some, h, hm]

/-- C2 amended witness: a wrapped Unauthenticated status is flattened
by kubeErrToGRPC to a fresh status error with the same code and
message. -/
theorem c2_default_status_reemission_witness :
    kubeErrToGRPC (some (GoError.mk "outer" none noFlags
      (some (GoError.mk "wrapped"
        (some ⟨Code.Unauthenticated, "token expired"⟩) noFlags none)))) =
      some (GoError.mk (statusErrText Code.Unauthenticated "token expired")
        (some ⟨Code.Unauthenticated, "token expired"⟩) noFlags none) :=
  (c2_default_status_reemission
    (GoError.mk "outer" none noFlags
      (some (GoError.mk "wrapped"
        (some ⟨Code.Unauthenticated, "token expired"⟩) noFlags none)))
    Code.Unauthenticated "token expired" rfl).1 rfl (by decide)

/-- C1: kubeErrToGRPC evaluates the thirteen control-plane predicates
in the fixed source order with first-match-wins semantics: whenever the
first rule of the ordered rule list whose predicate holds of the error
is (p, c), the classifier returns a fresh status error carrying exactly
the code c and the error's message. -/
theorem c1_kube_priority (e : GoError) (p : GoError → Bool) (c : Code)
    (hf : kubePredList.find? (fun q => q.1 e) = some (p, c)) :
    kubeErrToGRPC (some e) =
      some (GoError.mk (statusErrText c e.msg) (some ⟨c, e.msg⟩)
        noFlags none) := by
  by_cases h1 : e.kube.isNotFound
  · simp [kubePredList, List.find?_cons_of_pos, List.find?_cons_of_neg,
      h1] at hf
    obtain ⟨hp, hc⟩ := hf
    subst hc
    simp [kubeErrToGRPC, h1, rewrapError, statusError]
  simp only [Bool.not_eq_true] at h1
  by_cases h2 : e.kube.isAlreadyExists
  · simp [kubePredList, List.find?_cons_of_pos, List.find?_cons_of_neg,
      h1, h2] at hf
    obtain ⟨hp, hc⟩ := hf
    subst hc
    simp [kubeErrToGRPC, h1, h2, rewrapError, statusError]
  simp only [Bool.not_eq_true] at h2
  by_cases h3 : e.kube.isInvalid
  · simp [kubePredList, List.find?_cons_of_pos, List.find?_cons_of_neg,
      h1, h2, h3] at hf
    obtain ⟨hp, hc⟩ := hf
    subst hc
    simp [kubeErrToGRPC, h1, h2, h3, rewrapError, statusError]
  simp only [Bool.not_eq_true] at h3
  by_cases h4 : e.kube.isMethodNotSupported
  · simp [kubePredList, List.find?_cons_of_pos, List.find?_cons_of_neg,
      h1, h2, h3, h4] at hf
    obtain ⟨hp, hc⟩ := hf
    subst hc
    simp [kubeErrToGRPC, h1, h2, h3, h4, rewrapError, statusError]
  simp only [Bool.not_eq_true] at h4
  by_cases h5 : e.kube.isServiceUnavailable
  · simp [kubePredList, List.find?_cons_of_pos, List.find?_cons_of_neg,
      h1, h2, h3, h4, h5] at hf
    obtain ⟨hp, hc⟩ := hf
    subst hc
    simp [kubeErrToGRPC, h1, h2, h3, h4, h5, rewrapError, statusError]
  simp only [Bool.not_eq_true] at h5
  by_cases h6 : e.kube.isBadRequest
  · simp [kubePredList, List.find?_cons_of_pos, List.find?_cons_of_neg,
      h1, h2, h3, h4, h5, h6] at hf
    obtain ⟨hp, hc⟩ := hf
    subst hc
    simp [kubeErrToGRPC, h1, h2, h3, h4, h5, h6, rewrapError, statusError]
  simp only [Bool.not_eq_true] at h6
  by_cases h7 : e.kube.isUnauthorized
  · simp [kubePredList, List.find?_cons_of_pos, List.find?_cons_of_neg,
      h1, h2, h3, h4, h5, h6, h7] at hf
    obtain ⟨hp, hc⟩ := hf
    subst hc
    simp [kubeErrToGRPC, h1, h2, h3, h4, h5, h6, h7, rewrapError, statusError]
  simp only [Bool.not_eq_true] at h7
  by_cases h8 : e.kube.isForbidden
  · simp [kubePredList, List.find?_cons_of_pos, List.find?_cons_of_neg,
      h1, h2, h3, h4, h5, h6, h7, h8] at hf
    obtain ⟨hp, hc⟩ := hf
    subst hc
    simp [kubeErrToGRPC, h1, h2, h3, h4, h5, h6, h7, h8, rewrapError, statusError]
  simp only [Bool.not_eq_true] at h8
  by_cases h9 : e.kube.isTimeout
  · simp [kubePredList, List.find?_cons_of_pos, List.find?_cons_of_neg,
      h1, h2, h3, h4, h5, h6, h7, h8, h9] at hf
    obtain ⟨hp, hc⟩ := hf
    subst hc
    simp [kubeErrToGRPC, h1, h2, h3, h4, h5, h6, h7, h8, h9, rewrapError, statusError]
  simp only [Bool.not_eq_true] at h9
  by_cases h10 : e.kube.isServerTimeout
  · simp [kubePredList, List.find?_cons_of_pos, List.find?_cons_of_neg,
      h1, h2, h3, h4, h5, h6, h7, h8, h9, h10] at hf
    obtain ⟨hp, hc⟩ := hf
    subst hc
    simp [kubeErrToGRPC, h1, h2, h3, h4, h5, h6, h7, h8, h9, h10, rewrapError, statusError]
  simp only [Bool.not_eq_true] at h10
  by_cases h11 : e.kube.isConflict
  · simp [kubePredList, List.find?_cons_of_pos, List.find?_cons_of_neg,
      h1, h2, h3, h4, h5, h6, h7, h8, h9, h10, h11] at hf
    obtain ⟨hp, hc⟩ := hf
    subst hc
    simp [kubeErrToGRPC, h1, h2, h3, h4, h5, h6, h7, h8, h9, h10, h11, rewrapError, statusError]
  simp only [Bool.not_eq_true] at h11
  by_cases h12 : e.kube.isTooManyRequests
  · simp [kubePredList, List.find?_cons_of_pos, List.find?_cons_of_neg,
      h1, h2, h3, h4, h5, h6, h7, h8, h9, h10, h11, h12] at hf
    obtain ⟨hp, hc⟩ := hf
    subst hc
    simp [kubeErrToGRPC, h1, h2, h3, h4, h5, h6, h7, h8, h9, h10, h11, h12, rewrapError, statusError]
  simp only [Bool.not_eq_true] at h12
  by_cases h13 : e.kube.isInternalError
  · simp [kubePredList, List.find?_cons_of_pos, List.find?_cons_of_neg,
      h1, h2, h3, h4, h5, h6, h7, h8, h9, h10, h11, h12, h13] at hf
    obtain ⟨hp, hc⟩ := hf
    subst hc
    simp [kubeErrToGRPC, h1, h2, h3, h4, h5, h6, h7, h8, h9, h10, h11, h12, h13, rewrapError, statusError]
  simp only [Bool.not_eq_true] at h13
  simp [kubePredList, List.find?_cons_of_neg, List.find?_nil,
    h1, h2, h3, h4, h5, h6, h7, h8, h9, h10, h11, h12, h13] at hf

/-- C1 witness: an error satisfying both the invalid predicate (rule 3)
and the conflict predicate (rule 11) is classified by the earlier rule,
to InvalidArgument. -/
theorem c1_kube_priority_witness :
    kubeErrToGRPC (some (GoError.mk "field is immutable" none
      ⟨false, false, true, false, false, false, false, false, false,
       false, true, false, false⟩ none)) =
      some (GoError.mk (statusErrText Code.InvalidArgument "field is immutable")
        (some ⟨Code.InvalidArgument, "field is immutable"⟩) noFlags none) :=
  c1_kube_priority
    (GoError.mk "field is immutable" none
      ⟨false, false, true, false, false, false, false, false, false,
       false, true, false, false⟩ none)
    (fun e => e.kube.isInvalid) Code.InvalidArgument rfl

/-- C6: both classifiers are idempotent: applying a classifier to its
own output returns that output itself, so in particular the (code,
message) pair of a classified error is a fixed point. -/
theorem c6_idempotent (e : Option GoError) :
    gitErrToGRPC (gitErrToGRPC e) = gitErrToGRPC e ∧
    kubeErrToGRPC (kubeErrToGRPC e) = kubeErrToGRPC e := by
  constructor
  · cases e with
    | none => rfl
    | some e =>
      by_cases h : effectiveMsg e = ErrRepositoryNotFound
      · have h1 : gitErrToGRPC (some e) =
            statusError Code.NotFound ErrRepositoryNotFound := by
          simp [gitErrToGRPC_some, h, rewrapError, errorsNew, GoError.msg]
        rw [h1]
        rfl
      · have h1 : gitErrToGRPC (some e) = some e := by
          simp [gitErrToGRPC_some, h]
        rw [h1]
        exact h1
  · cases e with
    | none => rfl
    | some e =>
      by_cases h1 : e.kube.isNotFound
      · have hs : kubeErrToGRPC (some e) = statusError Code.NotFound e.msg := by
          simp [kubeErrToGRPC, h1, rewrapError]
        rw [hs, kubeErrToGRPC_statusError_fix]
      simp only [Bool.not_eq_true] at h1
      by_cases h2 : e.kube.isAlreadyExists
      · have hs : kubeErrToGRPC (some e) = statusError Code.AlreadyExists e.msg := by
          simp [kubeErrToGRPC, h1, h2, rewrapError]
        rw [hs, kubeErrToGRPC_statusError_fix]
      simp only [Bool.not_eq_true] at h2
      by_cases h3 : e.kube.isInvalid
      · have hs : kubeErrToGRPC (some e) = statusError Code.InvalidArgument e.msg := by
          simp [kubeErrToGRPC, h1, h2, h3, rewrapError]
        rw [hs, kubeErrToGRPC_statusError_fix]
      simp only [Bool.not_eq_true] at h3
      by_cases h4 : e.kube.isMethodNotSupported
      · have hs : kubeErrToGRPC (some e) = statusError Code.Unimplemented e.msg := by
          simp [kubeErrToGRPC, h1, h2, h3, h4, rewrapError]
        rw [hs, kubeErrToGRPC_statusError_fix]
      simp only [Bool.not_eq_true] at h4
      by_cases h5 : e.kube.isServiceUnavailable
      · have hs : kubeErrToGRPC (some e) = statusError Code.Unavailable e.msg := by
          simp [kubeErrToGRPC, h1, h2, h3, h4, h5, rewrapError]
        rw [hs, kubeErrToGRPC_statusError_fix]
      simp only [Bool.not_eq_true] at h5
      by_cases h6 : e.kube.isBadRequest
      · have hs : kubeErrToGRPC (some e) = statusError Code.FailedPrecondition e.msg := by
          simp [kubeErrToGRPC, h1, h2, h3, h4, h5, h6, rewrapError]
        rw [hs, kubeErrToGRPC_statusError_fix]
      simp only [Bool.not_eq_true] at h6
      by_cases h7 : e.kube.isUnauthorized
      · have hs : kubeErrToGRPC (some e) = statusError Code.Unauthenticated e.msg := by
          simp [kubeErrToGRPC, h1, h2, h3, h4, h5, h6, h7, rewrapError]
        rw [hs, kubeErrToGRPC_statusError_fix]
      simp only [Bool.not_eq_true] at h7
      by_cases h8 : e.kube.isForbidden
      · have hs : kubeErrToGRPC (some e) = statusError Code.PermissionDenied e.msg := by
          simp [kubeErrToGRPC, h1, h2, h3, h4, h5, h6, h7, h8, rewrapError]
        rw [hs, kubeErrToGRPC_statusError_fix]
      simp only [Bool.not_eq_true] at h8
      by_cases h9 : e.kube.isTimeout
      · have hs : kubeErrToGRPC (some e) = statusError Code.DeadlineExceeded e.msg := by
          simp [kubeErrToGRPC, h1, h2, h3, h4, h5, h6, h7, h8, h9, rewrapError]
        rw [hs, kubeErrToGRPC_statusError_fix]
      simp only [Bool.not_eq_true] at h9
      by_cases h10 : e.kube.isServerTimeout
      · have hs : kubeErrToGRPC (some e) = statusError Code.Unavailable e.msg := by
          simp [kubeErrToGRPC, h1, h2, h3, h4, h5, h6, h7, h8, h9, h10, rewrapError]
        rw [hs, kubeErrToGRPC_statusError_fix]
      simp only [Bool.not_eq_true] at h10
      by_cases h11 : e.kube.isConflict
      · have hs : kubeErrToGRPC (some e) = statusError Code.Aborted e.msg := by
          simp [kubeErrToGRPC, h1, h2, h3, h4, h5, h6, h7, h8, h9, h10, h11, rewrapError]
        rw [hs, kubeErrToGRPC_statusError_fix]
      simp only [Bool.not_eq_true] at h11
      by_cases h12 : e.kube.isTooManyRequests
      · have hs : kubeErrToGRPC (some e) = statusError Code.ResourceExhausted e.msg := by
          simp [kubeErrToGRPC, h1, h2, h3, h4, h5, h6, h7, h8, h9, h10, h11, h12, rewrapError]
        rw [hs, kubeErrToGRPC_statusError_fix]
      simp only [Bool.not_eq_true] at h12
      by_cases h13 : e.kube.isInternalError
      · have hs : kubeErrToGRPC (some e) = statusError Code.Internal e.msg := by
          simp [kubeErrToGRPC, h1, h2, h3, h4, h5, h6, h7, h8, h9, h10, h11, h12, h13, rewrapError]
        rw [hs, kubeErrToGRPC_statusError_fix]
      simp only [Bool.not_eq_true] at h13
      cases hu : UnwrapGRPCStatusNN e with
      | some s =>
        have hs : kubeErrToGRPC (some e) = statusError s.code s.message := by
          simp [kubeErrToGRPC, h1, h2, h3, h4, h5, h6, h7, h8, h9, h10, h11, h12, h13, hu]
        rw [hs, kubeErrToGRPC_statusError_fix]
      | none =>
        have hs : kubeErrToGRPC (some e) = some e := by
          simp [kubeErrToGRPC, h1, h2, h3, h4, h5, h6, h7, h8, h9, h10, h11, h12, h13, hu]
        rw [hs]
        exact hs

/-- C8: each of the four interceptor bindings invokes the wrapped
handler, keeps its non-error output (response value, stream messages)
unchanged, and applies the domain classifier exactly once to the
terminal error; a nil terminal error leaves the whole handler result
unchanged. -/
theorem c8_interceptors {Ctx Req Resp Srv SS Msg : Type}
    (uh : Ctx → Req → Resp × Option GoError)
    (sh : Srv → SS → List Msg × Option GoError)
    (ctx : Ctx) (req : Req) (srv : Srv) (ss : SS) :
    (ErrorCodeGitUnaryServerInterceptor uh ctx req =
      ((uh ctx req).1, gitErrToGRPC (uh ctx req).2)) ∧
    (ErrorCodeGitStreamServerInterceptor sh srv ss =
      ((sh srv ss).1, gitErrToGRPC (sh srv ss).2)) ∧
    (ErrorCodeK8sUnaryServerInterceptor uh ctx req =
      ((uh ctx req).1, kubeErrToGRPC (uh ctx req).2)) ∧
    (ErrorCodeK8sStreamServerInterceptor sh srv ss =
      ((sh srv ss).1, kubeErrToGRPC (sh srv ss).2)) ∧
    (∀ r : Resp, uh ctx req = (r, none) →
      ErrorCodeGitUnaryServerInterceptor uh ctx req = (r, none) ∧
      ErrorCodeK8sUnaryServerInterceptor uh ctx req = (r, none)) ∧
    (∀ ms : List Msg, sh srv ss = (ms, none) →
      ErrorCodeGitStreamServerInterceptor sh srv ss = (ms, none) ∧
      ErrorCodeK8sStreamServerInterceptor sh srv ss = (ms, none)) := by
  refine ⟨rfl, rfl, rfl, rfl, ?_, ?_⟩ <;> intro r hr <;> constructor <;>
    simp [ErrorCodeGitUnaryServerInterceptor,
      ErrorCodeK8sUnaryServerInterceptor,
      ErrorCodeGitStreamServerInterceptor,
      ErrorCodeK8sStreamServerInterceptor, hr, gitErrToGRPC, kubeErrToGRPC]

/-- C8 witness: with a unary handler answering 4 with nil error and a
stream handler emitting messages 1 and 2 with nil terminal error, the
bindings return the handler results unchanged. -/
theorem c8_interceptors_witness :
    ErrorCodeGitUnaryServerInterceptor
      (fun (_ : Unit) (n : Nat) => (n + 1, (none : Option GoError))) () 3 =
      (4, none) ∧
    ErrorCodeK8sStreamServerInterceptor
      (fun (_ : Unit) (_ : Unit) =>
        (([1, 2] : List Nat), (none : Option GoError))) () () =
      ([1, 2], none) :=
  ⟨((c8_interceptors
      (fun (_ : Unit) (n : Nat) => (n + 1, (none : Option GoError)))
      (fun (_ : Unit) (_ : Unit) =>
        (([1, 2] : List Nat), (none : Option GoError)))
      () 3 () ()).2.2.2.2.1 4 rfl).1,
   ((c8_interceptors
      (fun (_ : Unit) (n : Nat) => (n + 1, (none : Option GoError)))
      (fun (_ : Unit) (_ : Unit) =>
        (([1, 2] : List Nat), (none : Option GoError)))
      () 3 () ()).2.2.2.2.2 [1, 2] rfl).2⟩
